import Mathlib

/-!
Shallow embedding of the wb-dashboard filtering logic.

The repository has three JavaScript variants of the same dashboard script:
  * `src/script.js`            - range-mode year filter, layer clause is an empty
                                 placeholder, preview shows the first 10 rows;
  * `src/unnamed/part_000`     - range-mode year filter with a real layer filter,
                                 preview shows every row, year options derived
                                 from the data;
  * `src/unnamed/part_001`     - exact-year filter, preview capped at 255 rows
                                 with a truncation note.

JavaScript values that the code inspects are embedded explicitly:
  * a `year` field may be a number, `null`, or absent (`undefined`); relational
    comparisons coerce `null` to `0` and `undefined` to `NaN` (all comparisons
    with `NaN` are false), while strict equality `===` on a number is only true
    for that number;
  * a `value` field may be a finite number, `NaN`, `null`, or `undefined`;
  * DOM `<select>` values are strings; an empty string is falsy, and the code
    applies `parseInt` to year selections, so year selections are modelled by
    `Option Int` (`none` = empty string) and text selections by `String`
    (`""` = no constraint);
  * the `data` argument may be `null`/`undefined`/not-an-array, modelled by
    `Option (List DataPoint)` with `none` for every invalid shape.
-/

namespace WbDashboard

/-- JavaScript value of the `year` field of a record: a number, `null`, or
`undefined` (field absent). -/
inductive YVal where
  | num : Int → YVal
  | null : YVal
  | undef : YVal
deriving DecidableEq

/-- JavaScript value of the `value` field of a record: a finite number, `NaN`,
`null`, or `undefined`. -/
inductive VVal where
  | num : Int → VVal
  | nan : VVal
  | null : VVal
  | undef : VVal
deriving DecidableEq

/-- One data point of the consolidated dataset, as the scripts read it.
Optional string fields (`subcategory`, `layer`, `unit`) use `none` for
`null`/`undefined`; the scripts only compare them with `===` against a
string or read them through `x || fallback`, and both treat `null` and
`undefined` alike. -/
structure DataPoint where
  indicator : String
  country : String
  year : YVal
  value : VVal
  category : String
  subcategory : Option String
  layer : Option String
  unit : Option String
deriving DecidableEq

/-- The filter values read by `getFilters` in `src/script.js` and
`src/unnamed/part_000` (range mode). Year selections carry the integer the
string parses to, `none` for the empty selection. -/
structure RangeFilters where
  country : String
  indicator : String
  yearFrom : Option Int
  yearTo : Option Int
  layer : String
deriving DecidableEq

/-- The filter values read by `getFilters` in `src/unnamed/part_001`
(exact-year mode). -/
structure ExactFilters where
  country : String
  indicator : String
  year : Option Int
deriving DecidableEq

/-- JavaScript `d.year >= n`: numbers compare as usual, `null` coerces to
`0`, `undefined` coerces to `NaN` and every comparison with `NaN` is false. -/
def jsGe (y : YVal) (n : Int) : Bool :=
  match y with
  | .num m => decide (m ≥ n)
  | .null => decide ((0 : Int) ≥ n)
  | .undef => false

/-- JavaScript `d.year <= n`, with the same coercions as `jsGe`. -/
def jsLe (y : YVal) (n : Int) : Bool :=
  match y with
  | .num m => decide (m ≤ n)
  | .null => decide ((0 : Int) ≤ n)
  | .undef => false

/-- JavaScript strict equality `d.year === n` against a number: true only
when the field holds exactly that number. -/
def jsEqNum (y : YVal) (n : Int) : Bool :=
  match y with
  | .num m => decide (m = n)
  | _ => false

/-- The value-quality test `d.value !== null && d.value !== undefined &&
!isNaN(d.value)`: true exactly for finite numbers. -/
def valueOk (v : VVal) : Bool :=
  match v with
  | .num _ => true
  | _ => false

/-- `if (filters.country) { filtered = filtered.filter(d => d.country === filters.country) }` -/
def filterCountry (c : String) (l : List DataPoint) : List DataPoint :=
  if c = "" then l else l.filter (fun r => r.country == c)

/-- `if (filters.indicator) { filtered = filtered.filter(d => d.indicator === filters.indicator) }` -/
def filterIndicator (i : String) (l : List DataPoint) : List DataPoint :=
  if i = "" then l else l.filter (fun r => r.indicator == i)

/-- `if (filters.yearFrom) { filtered = filtered.filter(d => d.year >= yearFrom) }` -/
def filterYearFrom (yF : Option Int) (l : List DataPoint) : List DataPoint :=
  match yF with
  | none => l
  | some a => l.filter (fun r => jsGe r.year a)

/-- `if (filters.yearTo) { filtered = filtered.filter(d => d.year <= yearTo) }` -/
def filterYearTo (yT : Option Int) (l : List DataPoint) : List DataPoint :=
  match yT with
  | none => l
  | some b => l.filter (fun r => jsLe r.year b)

/-- `if (filters.year) { filtered = filtered.filter(d => d.year === year) }`
(exact-year variant `src/unnamed/part_001`). -/
def filterYearExact (y : Option Int) (l : List DataPoint) : List DataPoint :=
  match y with
  | none => l
  | some n => l.filter (fun r => jsEqNum r.year n)

/-- The unconditional pass `filtered = filtered.filter(d => d.value !== null
&& d.value !== undefined && !isNaN(d.value))`. -/
def filterValue (l : List DataPoint) : List DataPoint :=
  l.filter (fun r => valueOk r.value)

/-- `if (filters.layer && filters.layer !== "All") { filtered =
filtered.filter(d => d.layer === filters.layer) }` in `src/unnamed/part_000`.
Strict equality against a string is false for `null`/`undefined` layers. -/
def filterLayerV2 (s : String) (l : List DataPoint) : List DataPoint :=
  if s ≠ "" ∧ s ≠ "All" then l.filter (fun r => r.layer == some s) else l

/-- The range-validity test `if (filters.yearFrom && filters.yearTo) {
if (yearFrom > yearTo) { alert(...); return } }`. -/
def rangeInvalid (f : RangeFilters) : Bool :=
  match f.yearFrom, f.yearTo with
  | some a, some b => decide (a > b)
  | _, _ => false

/-- Outcome of one `applyFilters` call: the degenerate-input early return,
the range-validity early return (the alert), or a produced row list. -/
inductive EvalResult where
  | noData : EvalResult
  | rangeError : EvalResult
  | ok : List DataPoint → EvalResult
deriving DecidableEq

/-- `applyFilters` of `src/script.js` (lines 84-154): degenerate-input check,
country, indicator, year-from, year-to passes, then the range-validity check,
then the value-quality pass. The layer clause of that file is an empty
placeholder and filters nothing, so it contributes no pass here. -/
def applyFilters (data : Option (List DataPoint)) (f : RangeFilters) : EvalResult :=
  match data with
  | none => .noData
  | some d =>
    if d.length = 0 then .noData
    else
      let afterYears :=
        filterYearTo f.yearTo (filterYearFrom f.yearFrom
          (filterIndicator f.indicator (filterCountry f.country d)))
      if rangeInvalid f then .rangeError
      else .ok (filterValue afterYears)

/-- `applyFilters` of `src/unnamed/part_000` (lines 124-196): as in
`src/script.js`, plus a real layer pass after the value-quality pass. -/
def applyFiltersV2 (data : Option (List DataPoint)) (f : RangeFilters) : EvalResult :=
  match data with
  | none => .noData
  | some d =>
    if d.length = 0 then .noData
    else
      let afterYears :=
        filterYearTo f.yearTo (filterYearFrom f.yearFrom
          (filterIndicator f.indicator (filterCountry f.country d)))
      if rangeInvalid f then .rangeError
      else .ok (filterLayerV2 f.layer (filterValue afterYears))

/-- `applyFilters` of `src/unnamed/part_001` (lines 150-201): degenerate-input
check, country, indicator, exact-year passes, then the value-quality pass. -/
def applyFiltersV3 (data : Option (List DataPoint)) (f : ExactFilters) : EvalResult :=
  match data with
  | none => .noData
  | some d =>
    if d.length = 0 then .noData
    else
      .ok (filterValue (filterYearExact f.year
        (filterIndicator f.indicator (filterCountry f.country d))))

/-- One call of `src/script.js` `applyFilters` together with the module-level
`filteredData` state: the state is replaced only when a row list is produced;
both early returns leave it untouched. -/
def applyFiltersStep (st : List DataPoint) (data : Option (List DataPoint))
    (f : RangeFilters) : List DataPoint × EvalResult :=
  match applyFilters data f with
  | .ok rows => (rows, .ok rows)
  | r => (st, r)

/-- One call of `src/unnamed/part_000` `applyFilters` with its
`filteredData` state. -/
def applyFiltersStepV2 (st : List DataPoint) (data : Option (List DataPoint))
    (f : RangeFilters) : List DataPoint × EvalResult :=
  match applyFiltersV2 data f with
  | .ok rows => (rows, .ok rows)
  | r => (st, r)

/-- One call of `src/unnamed/part_001` `applyFilters` with its
`filteredData` state. -/
def applyFiltersStepV3 (st : List DataPoint) (data : Option (List DataPoint))
    (f : ExactFilters) : List DataPoint × EvalResult :=
  match applyFiltersV3 data f with
  | .ok rows => (rows, .ok rows)
  | r => (st, r)

/-- What the preview container holds after a render: a plain message div or
a table built from a row list, with or without the truncation note. -/
inductive Preview where
  | msg : String → Preview
  | table : List DataPoint → Bool → Preview
deriving DecidableEq

/-- `renderPreview` of `src/script.js` (lines 169-206): a message for an
empty row list, otherwise a table of exactly the rows it was given, with no
truncation note anywhere in that file. -/
def renderPreviewScript (rows : List DataPoint) : Preview :=
  if rows.length = 0 then .msg "No data matches the current filters"
  else .table rows false

/-- `renderResults` of `src/script.js` (lines 157-160): the preview is built
from `filteredData.slice(0, 10)`. -/
def renderResultsScript (fd : List DataPoint) : Preview :=
  renderPreviewScript (fd.take 10)

/-- `renderPreview` of `src/unnamed/part_000` (lines 211-252): every row is
rendered, with no cap and no truncation note. -/
def renderPreviewV2 (rows : List DataPoint) : Preview :=
  if rows.length = 0 then .msg "No data matches the current filters"
  else .table rows false

/-- `renderResults` of `src/unnamed/part_000` (lines 199-202): the preview is
built from the whole `filteredData`. -/
def renderResultsV2 (fd : List DataPoint) : Preview :=
  renderPreviewV2 fd

/-- `const maxPreviewRows = 255` of `src/unnamed/part_001` line 225. -/
def maxPreviewRows : Nat := 255

/-- `renderPreview` of `src/unnamed/part_001` (lines 216-267): the table is
built from `rows.slice(0, maxPreviewRows)` and the truncation note is shown
exactly when `rows.length > maxPreviewRows`. -/
def renderPreviewV3 (rows : List DataPoint) : Preview :=
  if rows.length = 0 then .msg "No data matches the current filters"
  else .table (rows.take maxPreviewRows) (decide (rows.length > maxPreviewRows))

/-- `renderResults` of `src/unnamed/part_001` (lines 204-207). -/
def renderResultsV3 (fd : List DataPoint) : Preview :=
  renderPreviewV3 fd

/-- The preview container after one `src/script.js` `applyFilters` call,
given its previous content: the degenerate-input return writes the
no-data message, the range-validity return only raises an alert and leaves
the container as it was, and a produced row list is rendered. -/
def displayAfterApply (prev : Preview) (data : Option (List DataPoint))
    (f : RangeFilters) : Preview :=
  match applyFilters data f with
  | .noData => .msg "No data available"
  | .rangeError => prev
  | .ok rows => renderResultsScript rows

/-- The preview container after one `src/unnamed/part_000` `applyFilters`
call, given its previous content. -/
def displayAfterApplyV2 (prev : Preview) (data : Option (List DataPoint))
    (f : RangeFilters) : Preview :=
  match applyFiltersV2 data f with
  | .noData => .msg "No data available"
  | .rangeError => prev
  | .ok rows => renderResultsV2 rows

/-- JavaScript truthiness of a `year` value, as in `.filter(y => y)` of
`src/unnamed/part_000` line 65: numbers other than `0` are truthy, `0`,
`null` and `undefined` are falsy. -/
def jsTruthy (y : YVal) : Bool :=
  match y with
  | .num n => decide (n ≠ 0)
  | _ => false

/-- The string the default `Array.prototype.sort()` comparator uses for a
`year` value: numbers print in decimal, `null` and `undefined` print as
their names. -/
def jsSortKey (y : YVal) : String :=
  match y with
  | .num n => toString n
  | .null => "null"
  | .undef => "undefined"

/-- Lexicographic order on character lists by code point, the order the
default JavaScript sort comparator induces on the key strings (all keys here
are ASCII, where code-unit and code-point order agree). -/
def charListLe : List Char → List Char → Bool
  | [], _ => true
  | _ :: _, [] => false
  | a :: as, b :: bs =>
    if a.toNat < b.toNat then true
    else if b.toNat < a.toNat then false
    else charListLe as bs

/-- The comparison the default `sort()` applies to two `year` values. -/
def jsKeyLe (a b : YVal) : Bool :=
  charListLe (jsSortKey a).toList (jsSortKey b).toList

/-- `[...new Set(xs)]`: deduplication keeping the first occurrence of each
element, written with an accumulator of the elements already seen. -/
def jsSetDedupAux (seen : List YVal) : List YVal → List YVal
  | [] => []
  | x :: xs =>
    if x ∈ seen then jsSetDedupAux seen xs
    else x :: jsSetDedupAux (x :: seen) xs

/-- `[...new Set(xs)]` with no elements seen yet. -/
def jsSetDedup (l : List YVal) : List YVal :=
  jsSetDedupAux [] l

/-- The year-option derivation of `populateFilters` in `src/unnamed/part_000`
line 65: `[...new Set(allIndicatorsData.map(d => d.year))].filter(y => y).sort()`.
The `sort()` call has no comparator, so it sorts by the string form of each
year. -/
def populateFiltersYears (d : List DataPoint) : List YVal :=
  ((jsSetDedup (d.map DataPoint.year)).filter jsTruthy).mergeSort jsKeyLe

/-- The default of the year-from selector set by `populateFilters` in
`src/unnamed/part_000` lines 82-85: `years[0]` when the list is non-empty. -/
def yearFromDefault (d : List DataPoint) : Option YVal :=
  (populateFiltersYears d).head?

/-- The default of the year-to selector set by `populateFilters` in
`src/unnamed/part_000` lines 82-85: `years[years.length - 1]`. -/
def yearToDefault (d : List DataPoint) : Option YVal :=
  (populateFiltersYears d).getLast?

/-! Membership and sublist facts for the individual passes. -/

theorem mem_filterCountry {c : String} {l : List DataPoint} {r : DataPoint} :
    r ∈ filterCountry c l ↔ r ∈ l ∧ (c = "" ∨ r.country = c) := by
  by_cases hc : c = "" <;> simp [filterCountry, hc, List.mem_filter]

theorem mem_filterIndicator {i : String} {l : List DataPoint} {r : DataPoint} :
    r ∈ filterIndicator i l ↔ r ∈ l ∧ (i = "" ∨ r.indicator = i) := by
  by_cases hi : i = "" <;> simp [filterIndicator, hi, List.mem_filter]

theorem mem_filterYearFrom {yF : Option Int} {l : List DataPoint} {r : DataPoint} :
    r ∈ filterYearFrom yF l ↔ r ∈ l ∧ (∀ a, yF = some a → jsGe r.year a = true) := by
  cases yF <;> simp [filterYearFrom, List.mem_filter]

theorem mem_filterYearTo {yT : Option Int} {l : List DataPoint} {r : DataPoint} :
    r ∈ filterYearTo yT l ↔ r ∈ l ∧ (∀ b, yT = some b → jsLe r.year b = true) := by
  cases yT <;> simp [filterYearTo, List.mem_filter]

theorem mem_filterYearExact {y : Option Int} {l : List DataPoint} {r : DataPoint} :
    r ∈ filterYearExact y l ↔ r ∈ l ∧ (∀ n, y = some n → jsEqNum r.year n = true) := by
  cases y <;> simp [filterYearExact, List.mem_filter]

theorem mem_filterValue {l : List DataPoint} {r : DataPoint} :
    r ∈ filterValue l ↔ r ∈ l ∧ valueOk r.value = true := by
  simp [filterValue, List.mem_filter]

theorem mem_filterLayerV2 {s : String} {l : List DataPoint} {r : DataPoint} :
    r ∈ filterLayerV2 s l ↔ r ∈ l ∧ (s ≠ "" → s ≠ "All" → r.layer = some s) := by
  by_cases h1 : s = ""
  · simp [filterLayerV2, h1]
  · by_cases h2 : s = "All"
    · simp [filterLayerV2, h1, h2]
    · simp [filterLayerV2, h1, h2, List.mem_filter]

theorem filterCountry_sublist (c : String) (l : List DataPoint) :
    (filterCountry c l).Sublist l := by
  unfold filterCountry
  split
  · exact List.Sublist.refl l
  · exact List.filter_sublist l

theorem filterIndicator_sublist (i : String) (l : List DataPoint) :
    (filterIndicator i l).Sublist l := by
  unfold filterIndicator
  split
  · exact List.Sublist.refl l
  · exact List.filter_sublist l

theorem filterYearFrom_sublist (yF : Option Int) (l : List DataPoint) :
    (filterYearFrom yF l).Sublist l := by
  cases yF
  · exact List.Sublist.refl l
  · exact List.filter_sublist l

theorem filterYearTo_sublist (yT : Option Int) (l : List DataPoint) :
    (filterYearTo yT l).Sublist l := by
  cases yT
  · exact List.Sublist.refl l
  · exact List.filter_sublist l

theorem filterYearExact_sublist (y : Option Int) (l : List DataPoint) :
    (filterYearExact y l).Sublist l := by
  cases y
  · exact List.Sublist.refl l
  · exact List.filter_sublist l

theorem filterValue_sublist (l : List DataPoint) :
    (filterValue l).Sublist l :=
  List.filter_sublist l

theorem filterLayerV2_sublist (s : String) (l : List DataPoint) :
    (filterLayerV2 s l).Sublist l := by
  unfold filterLayerV2
  split
  · exact List.filter_sublist l
  · exact List.Sublist.refl l

/-! Inversion of the three evaluators on the produced-rows outcome. -/

theorem applyFilters_ok_iff {d : List DataPoint} {f : RangeFilters} {out : List DataPoint} :
    applyFilters (some d) f = .ok out ↔
      ¬d.length = 0 ∧ rangeInvalid f = false ∧
        filterValue (filterYearTo f.yearTo (filterYearFrom f.yearFrom
          (filterIndicator f.indicator (filterCountry f.country d)))) = out := by
  unfold applyFilters
  by_cases h0 : d.length = 0 <;> by_cases h1 : rangeInvalid f <;> simp [h0, h1]

theorem applyFiltersV2_ok_iff {d : List DataPoint} {f : RangeFilters} {out : List DataPoint} :
    applyFiltersV2 (some d) f = .ok out ↔
      ¬d.length = 0 ∧ rangeInvalid f = false ∧
        filterLayerV2 f.layer (filterValue (filterYearTo f.yearTo (filterYearFrom f.yearFrom
          (filterIndicator f.indicator (filterCountry f.country d))))) = out := by
  unfold applyFiltersV2
  by_cases h0 : d.length = 0 <;> by_cases h1 : rangeInvalid f <;> simp [h0, h1]

theorem applyFiltersV3_ok_iff {d : List DataPoint} {f : ExactFilters} {out : List DataPoint} :
    applyFiltersV3 (some d) f = .ok out ↔
      ¬d.length = 0 ∧
        filterValue (filterYearExact f.year
          (filterIndicator f.indicator (filterCountry f.country d))) = out := by
  unfold applyFiltersV3
  by_cases h0 : d.length = 0 <;> simp [h0]

/-! The active predicates of a filter specification, as propositions on one
record. -/

/-- Keep iff the country constraint is inactive or matches exactly. -/
def countryPred (c : String) (r : DataPoint) : Prop :=
  c = "" ∨ r.country = c

/-- Keep iff the indicator constraint is inactive or matches exactly. -/
def indicatorPred (i : String) (r : DataPoint) : Prop :=
  i = "" ∨ r.indicator = i

/-- Keep iff each active year bound holds under the JavaScript comparison. -/
def yearRangePred (yF yT : Option Int) (r : DataPoint) : Prop :=
  (∀ a, yF = some a → jsGe r.year a = true) ∧ (∀ b, yT = some b → jsLe r.year b = true)

/-- Keep iff the exact-year constraint is inactive or strict equality holds. -/
def yearExactPred (y : Option Int) (r : DataPoint) : Prop :=
  ∀ n, y = some n → jsEqNum r.year n = true

/-- Keep iff the layer constraint is inactive, the sentinel, or matches. -/
def layerPredV2 (s : String) (r : DataPoint) : Prop :=
  s ≠ "" → s ≠ "All" → r.layer = some s

theorem mem_applyFilters_out {d : List DataPoint} {f : RangeFilters} {out : List DataPoint}
    (h : applyFilters (some d) f = .ok out) (r : DataPoint) :
    r ∈ out ↔ r ∈ d ∧ countryPred f.country r ∧ indicatorPred f.indicator r ∧
      yearRangePred f.yearFrom f.yearTo r ∧ valueOk r.value = true := by
  obtain ⟨-, -, hout⟩ := applyFilters_ok_iff.mp h
  subst hout
  simp only [mem_filterValue, mem_filterYearTo, mem_filterYearFrom, mem_filterIndicator,
    mem_filterCountry, countryPred, indicatorPred, yearRangePred]
  tauto

theorem mem_applyFiltersV2_out {d : List DataPoint} {f : RangeFilters} {out : List DataPoint}
    (h : applyFiltersV2 (some d) f = .ok out) (r : DataPoint) :
    r ∈ out ↔ r ∈ d ∧ countryPred f.country r ∧ indicatorPred f.indicator r ∧
      yearRangePred f.yearFrom f.yearTo r ∧ valueOk r.value = true ∧
      layerPredV2 f.layer r := by
  obtain ⟨-, -, hout⟩ := applyFiltersV2_ok_iff.mp h
  subst hout
  simp only [mem_filterLayerV2, mem_filterValue, mem_filterYearTo, mem_filterYearFrom,
    mem_filterIndicator, mem_filterCountry, countryPred, indicatorPred, yearRangePred,
    layerPredV2]
  tauto

theorem mem_applyFiltersV3_out {d : List DataPoint} {f : ExactFilters} {out : List DataPoint}
    (h : applyFiltersV3 (some d) f = .ok out) (r : DataPoint) :
    r ∈ out ↔ r ∈ d ∧ countryPred f.country r ∧ indicatorPred f.indicator r ∧
      yearExactPred f.year r ∧ valueOk r.value = true := by
  obtain ⟨-, hout⟩ := applyFiltersV3_ok_iff.mp h
  subst hout
  simp only [mem_filterValue, mem_filterYearExact, mem_filterIndicator,
    mem_filterCountry, countryPred, indicatorPred, yearExactPred]
  tauto

theorem applyFilters_ok_sublist {d : List DataPoint} {f : RangeFilters} {out : List DataPoint}
    (h : applyFilters (some d) f = .ok out) : out.Sublist d := by
  obtain ⟨-, -, hout⟩ := applyFilters_ok_iff.mp h
  subst hout
  exact ((((filterValue_sublist _).trans (filterYearTo_sublist _ _)).trans
    (filterYearFrom_sublist _ _)).trans (filterIndicator_sublist _ _)).trans
    (filterCountry_sublist _ _)

theorem applyFiltersV2_ok_sublist {d : List DataPoint} {f : RangeFilters} {out : List DataPoint}
    (h : applyFiltersV2 (some d) f = .ok out) : out.Sublist d := by
  obtain ⟨-, -, hout⟩ := applyFiltersV2_ok_iff.mp h
  subst hout
  exact (((((filterLayerV2_sublist _ _).trans (filterValue_sublist _)).trans
    (filterYearTo_sublist _ _)).trans (filterYearFrom_sublist _ _)).trans
    (filterIndicator_sublist _ _)).trans (filterCountry_sublist _ _)

theorem applyFiltersV3_ok_sublist {d : List DataPoint} {f : ExactFilters} {out : List DataPoint}
    (h : applyFiltersV3 (some d) f = .ok out) : out.Sublist d := by
  obtain ⟨-, hout⟩ := applyFiltersV3_ok_iff.mp h
  subst hout
  exact (((filterValue_sublist _).trans (filterYearExact_sublist _ _)).trans
    (filterIndicator_sublist _ _)).trans (filterCountry_sublist _ _)

/-! Order facts about the key comparison the default sort uses. -/

theorem charListLe_refl : ∀ l, charListLe l l = true
  | [] => rfl
  | a :: as => by simp [charListLe, charListLe_refl as]

theorem charListLe_cons_iff {a b : Char} {as bs : List Char} :
    charListLe (a :: as) (b :: bs) = true ↔
      a.toNat < b.toNat ∨ (a.toNat = b.toNat ∧ charListLe as bs = true) := by
  by_cases h1 : a.toNat < b.toNat
  · simp [charListLe, h1]
  · by_cases h2 : b.toNat < a.toNat
    · simp only [charListLe, if_neg h1, if_pos h2]
      constructor
      · intro h
        exact absurd h (by simp)
      · rintro (h | ⟨h, -⟩) <;> omega
    · have he : a.toNat = b.toNat := by omega
      simp [charListLe, h1, h2, he]

theorem charListLe_total : ∀ as bs, charListLe as bs = true ∨ charListLe bs as = true
  | [], _ => Or.inl rfl
  | _ :: _, [] => Or.inr rfl
  | a :: as, b :: bs => by
    rcases Nat.lt_trichotomy a.toNat b.toNat with h | h | h
    · left
      simp [charListLe, h]
    · rcases charListLe_total as bs with hr | hr
      · left
        rw [charListLe_cons_iff]
        exact Or.inr ⟨h, hr⟩
      · right
        rw [charListLe_cons_iff]
        exact Or.inr ⟨h.symm, hr⟩
    · right
      simp [charListLe, h]

theorem charListLe_trans : ∀ as bs cs, charListLe as bs = true →
    charListLe bs cs = true → charListLe as cs = true
  | [], _, _, _, _ => rfl
  | _ :: _, [], _, h1, _ => by simp [charListLe] at h1
  | _ :: _, _ :: _, [], _, h2 => by simp [charListLe] at h2
  | a :: as, b :: bs, c :: cs, h1, h2 => by
    rw [charListLe_cons_iff] at h1 h2 ⊢
    rcases h1 with h1 | ⟨h1e, h1r⟩ <;> rcases h2 with h2 | ⟨h2e, h2r⟩
    · left; omega
    · left; omega
    · left; omega
    · exact Or.inr ⟨by omega, charListLe_trans as bs cs h1r h2r⟩

theorem jsKeyLe_refl (a : YVal) : jsKeyLe a a = true :=
  charListLe_refl _

theorem jsKeyLe_trans (a b c : YVal) (h1 : jsKeyLe a b = true)
    (h2 : jsKeyLe b c = true) : jsKeyLe a c = true :=
  charListLe_trans _ _ _ h1 h2

theorem jsKeyLe_total (a b : YVal) : (jsKeyLe a b || jsKeyLe b a) = true := by
  rw [Bool.or_eq_true]
  rcases charListLe_total (jsSortKey a).toList (jsSortKey b).toList with h | h
  · exact Or.inl h
  · exact Or.inr h

/-! Facts about the set-based deduplication. -/

theorem mem_jsSetDedupAux : ∀ (l seen : List YVal) (a : YVal),
    a ∈ jsSetDedupAux seen l ↔ a ∈ l ∧ a ∉ seen
  | [], seen, a => by simp [jsSetDedupAux]
  | x :: xs, seen, a => by
    by_cases hx : x ∈ seen
    · rw [jsSetDedupAux, if_pos hx, mem_jsSetDedupAux xs seen a]
      simp only [List.mem_cons]
      by_cases hax : a = x
      · subst hax
        simp [hx]
      · simp [hax]
    · rw [jsSetDedupAux, if_neg hx]
      simp only [List.mem_cons, mem_jsSetDedupAux xs (x :: seen) a]
      by_cases hax : a = x
      · subst hax
        simp [hx]
      · simp [hax]

theorem nodup_jsSetDedupAux : ∀ (l seen : List YVal), (jsSetDedupAux seen l).Nodup
  | [], seen => List.nodup_nil
  | x :: xs, seen => by
    by_cases hx : x ∈ seen
    · rw [jsSetDedupAux, if_pos hx]
      exact nodup_jsSetDedupAux xs seen
    · rw [jsSetDedupAux, if_neg hx]
      refine List.nodup_cons.mpr ⟨?_, nodup_jsSetDedupAux xs (x :: seen)⟩
      intro hmem
      exact ((mem_jsSetDedupAux xs (x :: seen) x).mp hmem).2 (List.mem_cons_self x seen)

theorem mem_jsSetDedup {l : List YVal} {a : YVal} : a ∈ jsSetDedup l ↔ a ∈ l := by
  rw [jsSetDedup, mem_jsSetDedupAux]
  simp

theorem nodup_jsSetDedup (l : List YVal) : (jsSetDedup l).Nodup :=
  nodup_jsSetDedupAux l []

/-! The first and last elements of a pairwise-sorted list are extremal. -/

theorem head?_minimal {α : Type} {R : α → α → Prop} (hrefl : ∀ a, R a a)
    (l : List α) (x : α) (hp : l.Pairwise R) (hh : l.head? = some x) :
    x ∈ l ∧ ∀ y ∈ l, R x y := by
  cases l with
  | nil => simp at hh
  | cons a t =>
    have hx : x = a := by
      simpa using hh.symm
    subst hx
    rcases List.pairwise_cons.mp hp with ⟨ha, -⟩
    refine ⟨List.mem_cons_self x t, ?_⟩
    intro y hy
    rcases List.mem_cons.mp hy with hy | hy
    · exact hy ▸ hrefl x
    · exact ha y hy

theorem getLast?_maximal {α : Type} {R : α → α → Prop} (hrefl : ∀ a, R a a) :
    ∀ (l : List α) (x : α), l.Pairwise R → l.getLast? = some x →
      x ∈ l ∧ ∀ y ∈ l, R y x
  | [], x, _, hh => by simp at hh
  | [a], x, _, hh => by
    have hx : x = a := by
      simpa using hh.symm
    subst hx
    refine ⟨List.mem_singleton_self x, ?_⟩
    intro y hy
    rcases List.mem_singleton.mp hy with hy
    exact hy ▸ hrefl x
  | a :: b :: t, x, hp, hh => by
    rw [List.getLast?_cons_cons] at hh
    rcases List.pairwise_cons.mp hp with ⟨ha, hp2⟩
    obtain ⟨hmem, hmax⟩ := getLast?_maximal hrefl (b :: t) x hp2 hh
    refine ⟨List.mem_cons_of_mem a hmem, ?_⟩
    intro y hy
    rcases List.mem_cons.mp hy with hy | hy
    · exact hy ▸ ha x hmem
    · exact hmax y hy

/-! Concrete records and specifications used to instantiate the theorems. -/

/-- A well-formed record, as in Example 1 of the specification. -/
def sampleAlbania : DataPoint :=
  { indicator := "Broadband", country := "Albania", year := .num 2019, value := .num 5,
    category := "Digital", subcategory := none, layer := some "Basic", unit := some "pct" }

/-- A second well-formed record with a different country and layer. -/
def sampleSerbia : DataPoint :=
  { indicator := "Broadband", country := "Serbia", year := .num 2019, value := .num 7,
    category := "Digital", subcategory := none, layer := some "Intermediate", unit := some "pct" }

/-- A record whose value is `NaN`. -/
def sampleNaN : DataPoint :=
  { indicator := "Broadband", country := "Albania", year := .num 2020, value := .nan,
    category := "Digital", subcategory := none, layer := some "Basic", unit := some "pct" }

/-- A record whose year is `null`. -/
def nullYearPoint : DataPoint :=
  { indicator := "Broadband", country := "Albania", year := .null, value := .num 5,
    category := "Digital", subcategory := none, layer := some "Basic", unit := some "pct" }

/-- A record whose year field is absent. -/
def undefYearPoint : DataPoint :=
  { indicator := "Broadband", country := "Albania", year := .undef, value := .num 5,
    category := "Digital", subcategory := none, layer := some "Basic", unit := some "pct" }

/-- A record observed at year 998 (three decimal digits). -/
def year998Point : DataPoint :=
  { indicator := "I", country := "C", year := .num 998, value := .num 1,
    category := "cat", subcategory := none, layer := none, unit := none }

/-- A record observed at year 1000 (four decimal digits). -/
def year1000Point : DataPoint :=
  { indicator := "I", country := "C", year := .num 1000, value := .num 1,
    category := "cat", subcategory := none, layer := none, unit := none }

/-- The empty range-mode specification: no constraint on any dimension. -/
def noFilters : RangeFilters :=
  { country := "", indicator := "", yearFrom := none, yearTo := none, layer := "" }

/-- The empty exact-mode specification. -/
def noFiltersE : ExactFilters :=
  { country := "", indicator := "", year := none }

/-! The claims. -/

/-- C3: when evaluation succeeds (range variant of `src/script.js` and exact
variant of `src/unnamed/part_001`), a record is in the output exactly when it
is in the input, satisfies every active predicate of the spec — country
equality, indicator equality, and the year constraint under the JavaScript
comparisons — and has a non-null, non-NaN value. In particular every output
record satisfies every active predicate, and every input record absent from
the output fails an active predicate or the value test. -/
theorem c3_conjunction_of_active_predicates
    {d e out out2 : List DataPoint} {f : RangeFilters} {g : ExactFilters}
    (h1 : applyFilters (some d) f = .ok out)
    (h2 : applyFiltersV3 (some e) g = .ok out2) :
    (∀ r, r ∈ out ↔ r ∈ d ∧ countryPred f.country r ∧ indicatorPred f.indicator r ∧
      yearRangePred f.yearFrom f.yearTo r ∧ valueOk r.value = true)
  ∧ (∀ r, r ∈ out2 ↔ r ∈ e ∧ countryPred g.country r ∧ indicatorPred g.indicator r ∧
      yearExactPred g.year r ∧ valueOk r.value = true) :=
  ⟨mem_applyFilters_out h1, mem_applyFiltersV3_out h2⟩

/-- Instantiation of C3 on Example 1 of the specification. -/
theorem c3_witness :
    sampleAlbania ∈ [sampleAlbania] ↔ sampleAlbania ∈ [sampleAlbania, sampleSerbia] ∧
      countryPred "Albania" sampleAlbania ∧ indicatorPred "" sampleAlbania ∧
      yearRangePred none none sampleAlbania ∧ valueOk sampleAlbania.value = true := by
  have h1 : applyFilters (some [sampleAlbania, sampleSerbia])
      { country := "Albania", indicator := "", yearFrom := none, yearTo := none, layer := "" }
      = .ok [sampleAlbania] := by decide
  have h2 : applyFiltersV3 (some [sampleAlbania])
      { country := "", indicator := "", year := some 2019 } = .ok [sampleAlbania] := by decide
  exact (c3_conjunction_of_active_predicates h1 h2).1 sampleAlbania

/-- C4: in all three variants, a record whose value is `null`, `undefined` or
`NaN` never appears in a successful output, whatever the specification. -/
theorem c4_value_quality_unconditional
    {d dv e out outv out2 : List DataPoint} {f fv : RangeFilters} {g : ExactFilters}
    (h1 : applyFilters (some d) f = .ok out)
    (h2 : applyFiltersV2 (some dv) fv = .ok outv)
    (h3 : applyFiltersV3 (some e) g = .ok out2) :
    (∀ r, (r.value = .null ∨ r.value = .undef ∨ r.value = .nan) → r ∉ out)
  ∧ (∀ r, (r.value = .null ∨ r.value = .undef ∨ r.value = .nan) → r ∉ outv)
  ∧ (∀ r, (r.value = .null ∨ r.value = .undef ∨ r.value = .nan) → r ∉ out2) := by
  refine ⟨?_, ?_, ?_⟩ <;> intro r hv hmem
  · have h := ((mem_applyFilters_out h1 r).mp hmem).2.2.2.2
    rcases hv with hv | hv | hv <;> rw [hv] at h <;> simp [valueOk] at h
  · have h := ((mem_applyFiltersV2_out h2 r).mp hmem).2.2.2.2.1
    rcases hv with hv | hv | hv <;> rw [hv] at h <;> simp [valueOk] at h
  · have h := ((mem_applyFiltersV3_out h3 r).mp hmem).2.2.2.2
    rcases hv with hv | hv | hv <;> rw [hv] at h <;> simp [valueOk] at h

/-- Instantiation of C4: the `NaN`-valued record of Example 2 is excluded
under the empty specification in all three variants. -/
theorem c4_witness : sampleNaN ∉ ([sampleAlbania] : List DataPoint) := by
  have h1 : applyFilters (some [sampleAlbania, sampleNaN]) noFilters
      = .ok [sampleAlbania] := by decide
  have h2 : applyFiltersV2 (some [sampleAlbania, sampleNaN]) noFilters
      = .ok [sampleAlbania] := by decide
  have h3 : applyFiltersV3 (some [sampleAlbania, sampleNaN]) noFiltersE
      = .ok [sampleAlbania] := by decide
  exact (c4_value_quality_unconditional h1 h2 h3).1 sampleNaN (Or.inr (Or.inr rfl))

/-- C5: on a missing or empty record sequence, evaluation ends in the
`noData` outcome — a constructor distinct from the range `ValidationError`
and from every produced row list — the stored `filteredData` is untouched,
and the preview container holds the no-data message, never a result table. -/
theorem c5_degenerate_input_nodata :
    (∀ st f, applyFiltersStep st none f = (st, .noData))
  ∧ (∀ st f, applyFiltersStep st (some []) f = (st, .noData))
  ∧ (∀ st g, applyFiltersStepV3 st none g = (st, .noData))
  ∧ (∀ st g, applyFiltersStepV3 st (some []) g = (st, .noData))
  ∧ (∀ rows, EvalResult.noData ≠ EvalResult.ok rows)
  ∧ EvalResult.noData ≠ EvalResult.rangeError
  ∧ (∀ prev f, displayAfterApply prev none f = .msg "No data available")
  ∧ (∀ prev f, displayAfterApply prev (some []) f = .msg "No data available")
  ∧ (∀ t rows b, Preview.msg t ≠ Preview.table rows b) :=
  ⟨fun _ _ => rfl, fun _ _ => rfl, fun _ _ => rfl, fun _ _ => rfl,
   fun _ h => EvalResult.noConfusion h, fun h => EvalResult.noConfusion h,
   fun _ _ => rfl, fun _ _ => rfl, fun _ _ _ h => Preview.noConfusion h⟩

/-- Instantiation of C5 on the empty record sequence. -/
theorem c5_witness : applyFiltersStep [sampleAlbania] (some []) noFilters
    = ([sampleAlbania], .noData) :=
  c5_degenerate_input_nodata.2.1 [sampleAlbania] noFilters

/-- C6: a successful output (range variants of `src/script.js` and
`src/unnamed/part_000`) is a sublist of the input: nothing is invented, the
length does not grow, and the surviving records keep their relative input
order. -/
theorem c6_output_is_ordered_subsequence
    {d dv out outv : List DataPoint} {f fv : RangeFilters}
    (h1 : applyFilters (some d) f = .ok out)
    (h2 : applyFiltersV2 (some dv) fv = .ok outv) :
    out.Sublist d ∧ out.length ≤ d.length ∧ outv.Sublist dv ∧ outv.length ≤ dv.length :=
  ⟨applyFilters_ok_sublist h1, (applyFilters_ok_sublist h1).length_le,
   applyFiltersV2_ok_sublist h2, (applyFiltersV2_ok_sublist h2).length_le⟩

/-- Instantiation of C6 on a two-record input. -/
theorem c6_witness :
    List.Sublist [sampleAlbania] [sampleAlbania, sampleNaN] ∧
      ([sampleAlbania] : List DataPoint).length ≤ ([sampleAlbania, sampleNaN] : List DataPoint).length ∧
      List.Sublist [sampleAlbania] [sampleAlbania, sampleNaN] ∧
      ([sampleAlbania] : List DataPoint).length ≤ ([sampleAlbania, sampleNaN] : List DataPoint).length := by
  have h1 : applyFilters (some [sampleAlbania, sampleNaN]) noFilters
      = .ok [sampleAlbania] := by decide
  have h2 : applyFiltersV2 (some [sampleAlbania, sampleNaN]) noFilters
      = .ok [sampleAlbania] := by decide
  exact c6_output_is_ordered_subsequence h1 h2

/-- C7: evaluation in the range variants is a function of the record sequence
and the specification only — the outcome does not depend on the stored
`filteredData`, a second call with identical arguments reproduces the same
state and outcome, and every output record is an element of the input
sequence (records are returned as given, never modified; the embedding is a
pure function of its arguments, matching the absence of any write to `data`
or its elements in the source). -/
theorem c7_deterministic_and_pure :
    (∀ st1 st2 data f, (applyFiltersStep st1 data f).2 = (applyFiltersStep st2 data f).2)
  ∧ (∀ st data f, applyFiltersStep (applyFiltersStep st data f).1 data f
      = applyFiltersStep st data f)
  ∧ (∀ st d0 f rows r, (applyFiltersStep st (some d0) f).2 = .ok rows → r ∈ rows → r ∈ d0)
  ∧ (∀ st1 st2 data f, (applyFiltersStepV2 st1 data f).2 = (applyFiltersStepV2 st2 data f).2)
  ∧ (∀ st data f, applyFiltersStepV2 (applyFiltersStepV2 st data f).1 data f
      = applyFiltersStepV2 st data f)
  ∧ (∀ st d0 f rows r, (applyFiltersStepV2 st (some d0) f).2 = .ok rows → r ∈ rows → r ∈ d0) := by
  refine ⟨?_, ?_, ?_, ?_, ?_, ?_⟩
  · intro st1 st2 data f
    cases h : applyFilters data f <;> simp [applyFiltersStep, h]
  · intro st data f
    cases h : applyFilters data f <;> simp [applyFiltersStep, h]
  · intro st d0 f rows r hstep hr
    cases h : applyFilters (some d0) f with
    | noData => simp [applyFiltersStep, h] at hstep
    | rangeError => simp [applyFiltersStep, h] at hstep
    | ok rows0 =>
      have : rows0 = rows := by
        simpa [applyFiltersStep, h] using hstep
      exact (applyFilters_ok_sublist h).subset (this ▸ hr)
  · intro st1 st2 data f
    cases h : applyFiltersV2 data f <;> simp [applyFiltersStepV2, h]
  · intro st data f
    cases h : applyFiltersV2 data f <;> simp [applyFiltersStepV2, h]
  · intro st d0 f rows r hstep hr
    cases h : applyFiltersV2 (some d0) f with
    | noData => simp [applyFiltersStepV2, h] at hstep
    | rangeError => simp [applyFiltersStepV2, h] at hstep
    | ok rows0 =>
      have : rows0 = rows := by
        simpa [applyFiltersStepV2, h] using hstep
      exact (applyFiltersV2_ok_sublist h).subset (this ▸ hr)

/-- Instantiation of C7: the outcome is the same from two different prior
states, and a surviving record is an element of the input. -/
theorem c7_witness :
    (applyFiltersStep [sampleSerbia] (some [sampleAlbania, sampleNaN]) noFilters).2
      = (applyFiltersStep [] (some [sampleAlbania, sampleNaN]) noFilters).2
  ∧ sampleAlbania ∈ [sampleAlbania, sampleNaN] :=
  ⟨c7_deterministic_and_pure.1 [sampleSerbia] [] (some [sampleAlbania, sampleNaN]) noFilters,
   c7_deterministic_and_pure.2.2.1 [] [sampleAlbania, sampleNaN] noFilters [sampleAlbania]
     sampleAlbania (by decide) (by decide)⟩

/-- A specification whose year range is inverted (from 2020 down to 2015). -/
def invalidRangeFilters : RangeFilters :=
  { country := "", indicator := "", yearFrom := some 2020, yearTo := some 2015, layer := "" }

/-- The layer pass is the identity when its selection is empty or the
sentinel. -/
theorem filterLayerV2_inactive {s : String} (h : s = "" ∨ s = "All")
    (l : List DataPoint) : filterLayerV2 s l = l := by
  rcases h with h | h <;> subst h <;> rw [filterLayerV2, if_neg (by decide)]

/-- When the layer selection is empty or the sentinel, the `part_000` variant
agrees with the `script.js` variant. -/
theorem applyFiltersV2_layer_skip (data : Option (List DataPoint)) (f : RangeFilters)
    (h : f.layer = "" ∨ f.layer = "All") : applyFiltersV2 data f = applyFilters data f := by
  cases data with
  | none => rfl
  | some d =>
    simp only [applyFiltersV2, applyFilters, filterLayerV2_inactive h]

/-- C1 (counterexample): on the empty record sequence the call with an
inverted year range ends in `noData`, not in the range `ValidationError`,
although both bounds are set and from exceeds to — the claim quantifies over
every record sequence, but the degenerate-input check runs first. -/
theorem c1_counterexample :
    applyFiltersStep [] (some []) invalidRangeFilters = ([], .noData)
  ∧ EvalResult.noData ≠ EvalResult.rangeError
  ∧ invalidRangeFilters.yearFrom = some 2020
  ∧ invalidRangeFilters.yearTo = some 2015
  ∧ (2015 : Int) < 2020 := by decide

/-- C1 (amended): on every non-empty record sequence, a specification with
both year bounds set and from exceeding to makes both range variants end in
the range error, with the stored `filteredData` and the preview container
left exactly as they were, and no row list produced. -/
theorem c1_amended_range_error :
    ∀ st prev d f a b, d ≠ [] → f.yearFrom = some a → f.yearTo = some b → b < a →
      applyFiltersStep st (some d) f = (st, .rangeError)
    ∧ applyFiltersStepV2 st (some d) f = (st, .rangeError)
    ∧ displayAfterApply prev (some d) f = prev
    ∧ displayAfterApplyV2 prev (some d) f = prev
    ∧ ∀ rows, applyFilters (some d) f ≠ .ok rows := by
  intro st prev d f a b hd hF hT hab
  have hinv : rangeInvalid f = true := by
    simp only [rangeInvalid, hF, hT, decide_eq_true_eq]
    exact hab
  have hlen : ¬d.length = 0 := by
    simp [List.length_eq_zero, hd]
  have hres : applyFilters (some d) f = .rangeError := by
    simp [applyFilters, hlen, hinv]
  have hresV2 : applyFiltersV2 (some d) f = .rangeError := by
    simp [applyFiltersV2, hlen, hinv]
  refine ⟨by simp [applyFiltersStep, hres], by simp [applyFiltersStepV2, hresV2],
    by simp [displayAfterApply, hres], by simp [displayAfterApplyV2, hresV2],
    fun rows h => ?_⟩
  rw [hres] at h
  exact EvalResult.noConfusion h

/-- Instantiation of C1 (amended) on a one-record sequence. -/
theorem c1_witness :
    applyFiltersStep [sampleSerbia] (some [sampleAlbania]) invalidRangeFilters
      = ([sampleSerbia], .rangeError)
  ∧ displayAfterApply (.msg "previous") (some [sampleAlbania]) invalidRangeFilters
      = .msg "previous" := by
  obtain ⟨h1, h2, h3, h4, h5⟩ := c1_amended_range_error [sampleSerbia] (.msg "previous")
    [sampleAlbania] invalidRangeFilters 2020 2015 (by decide) rfl rfl (by decide)
  exact ⟨h1, h3⟩

/-- C2 (counterexample): in `src/script.js` the layer clause is an empty
placeholder, so a record whose layer differs from a non-empty, non-sentinel
layer selection still survives evaluation — the second half of the claim
fails on that variant. -/
theorem c2_counterexample :
    applyFilters (some [sampleAlbania])
      { country := "", indicator := "", yearFrom := none, yearTo := none,
        layer := "Intermediate" }
      = .ok [sampleAlbania]
  ∧ sampleAlbania.layer = some "Basic"
  ∧ ("Basic" : String) ≠ "Intermediate" := by decide

/-- C2 (amended): the layer selection has no effect at all in `src/script.js`
(in particular the sentinel and the empty selection agree there); in
`src/unnamed/part_000` the sentinel "All" and the empty selection produce the
same result, and under any other non-empty selection a record survives only
if its layer field equals the selection exactly. -/
theorem c2_amended_layer_semantics :
    (∀ data (f : RangeFilters) s, applyFilters data { f with layer := s } = applyFilters data f)
  ∧ (∀ data (f : RangeFilters), applyFiltersV2 data { f with layer := "All" }
      = applyFiltersV2 data { f with layer := "" })
  ∧ (∀ d f out r, applyFiltersV2 (some d) f = .ok out → f.layer ≠ "" → f.layer ≠ "All" →
      r ∈ out → r.layer = some f.layer) := by
  refine ⟨fun data f s => rfl, fun data f => ?_, fun d f out r hok h1 h2 hr => ?_⟩
  · rw [applyFiltersV2_layer_skip data _ (Or.inr rfl),
      applyFiltersV2_layer_skip data _ (Or.inl rfl)]
    rfl
  · exact ((mem_applyFiltersV2_out hok r).mp hr).2.2.2.2.2 h1 h2

/-- Instantiation of C2 (amended): a record surviving a "Basic" layer
selection in the `part_000` variant carries exactly that layer. -/
theorem c2_witness : sampleAlbania.layer = some "Basic" := by
  have hok : applyFiltersV2 (some [sampleAlbania, sampleSerbia])
      { country := "", indicator := "", yearFrom := none, yearTo := none, layer := "Basic" }
      = .ok [sampleAlbania] := by decide
  exact c2_amended_layer_semantics.2.2 _ _ _ _ hok (by decide) (by decide) (by decide)

/-- C8 (counterexample): the `src/script.js` render path previews only the
first 10 rows and never shows a truncation note, so an 11-row result — well
inside the claimed 255-row cap — is not rendered in full. -/
theorem c8_counterexample :
    renderResultsScript (List.replicate 11 sampleAlbania)
      = .table (List.replicate 10 sampleAlbania) false
  ∧ (List.replicate 11 sampleAlbania).length = 11
  ∧ (List.replicate 10 sampleAlbania).length = 10
  ∧ (11 : Nat) ≤ maxPreviewRows
  ∧ List.replicate 10 sampleAlbania ≠ List.replicate 11 sampleAlbania := by decide

/-- C8 (amended): only `src/unnamed/part_001` caps the preview at 255 rows —
there the table holds the first `min 255 n` results in order and the
truncation note appears exactly when more than 255 rows matched, with all
rows and no note within the cap. `src/script.js` previews at most the first
10 rows and never shows a note, and `src/unnamed/part_000` always renders
every row with no note. -/
theorem c8_amended_preview_caps :
    (∀ rows shown notice, renderPreviewV3 rows = .table shown notice →
        shown = rows.take maxPreviewRows ∧ shown.length ≤ maxPreviewRows ∧
        (notice = true ↔ maxPreviewRows < rows.length) ∧
        (rows.length ≤ maxPreviewRows → shown = rows ∧ notice = false))
  ∧ (∀ fd shown notice, renderResultsScript fd = .table shown notice →
        shown = fd.take 10 ∧ shown.length ≤ 10 ∧ notice = false)
  ∧ (∀ fd shown notice, renderResultsV2 fd = .table shown notice →
        shown = fd ∧ notice = false) := by
  refine ⟨?_, ?_, ?_⟩
  · intro rows shown notice h
    rw [renderPreviewV3] at h
    by_cases h0 : rows.length = 0
    · rw [if_pos h0] at h
      exact Preview.noConfusion h
    · rw [if_neg h0] at h
      injection h with h1 h2
      refine ⟨h1.symm, ?_, ?_, ?_⟩
      · rw [← h1]
        exact List.length_take_le _ _
      · rw [← h2]
        simp [decide_eq_true_eq]
      · intro hle
        refine ⟨by rw [← h1]; exact List.take_of_length_le hle, ?_⟩
        rw [← h2]
        simp only [decide_eq_false_iff_not]
        omega
  · intro fd shown notice h
    rw [renderResultsScript, renderPreviewScript] at h
    by_cases h0 : (fd.take 10).length = 0
    · rw [if_pos h0] at h
      exact Preview.noConfusion h
    · rw [if_neg h0] at h
      injection h with h1 h2
      exact ⟨h1.symm, by rw [← h1]; exact List.length_take_le _ _, h2.symm⟩
  · intro fd shown notice h
    rw [renderResultsV2, renderPreviewV2] at h
    by_cases h0 : fd.length = 0
    · rw [if_pos h0] at h
      exact Preview.noConfusion h
    · rw [if_neg h0] at h
      injection h with h1 h2
      exact ⟨h1.symm, h2.symm⟩

/-- Instantiation of C8 (amended) on the 255-cap render path at an 11-row
result. -/
theorem c8_witness :
    List.replicate 11 sampleAlbania = (List.replicate 11 sampleAlbania).take maxPreviewRows
  ∧ (List.replicate 11 sampleAlbania).length ≤ maxPreviewRows
  ∧ (false = true ↔ maxPreviewRows < (List.replicate 11 sampleAlbania).length)
  ∧ ((List.replicate 11 sampleAlbania).length ≤ maxPreviewRows →
      List.replicate 11 sampleAlbania = List.replicate 11 sampleAlbania ∧ false = false) :=
  c8_amended_preview_caps.1 (List.replicate 11 sampleAlbania)
    (List.replicate 11 sampleAlbania) false (by decide)

/-- C10 (counterexample): a record whose year is `null` survives an active
year-to constraint, because the JavaScript comparison coerces `null` to `0`
and `0 <= 2022` holds — the claim expects exclusion under every active year
constraint. -/
theorem c10_counterexample :
    applyFilters (some [nullYearPoint])
      { country := "", indicator := "", yearFrom := none, yearTo := some 2022, layer := "" }
      = .ok [nullYearPoint]
  ∧ nullYearPoint.year = .null
  ∧ (some 2022 : Option Int) ≠ none := by decide

/-- C10 (amended): with no year constraint, records with non-numeric years
are retained (when they pass the other predicates); an `undefined` year is
excluded by any active bound; a `null` year is excluded by a positive
year-from bound but retained under a non-negative year-to bound, since
`null` coerces to `0` while `undefined` compares as `NaN`; in the exact-year
variant strict equality excludes both. -/
theorem c10_amended_nonnumeric_years :
    (∀ d f out r, applyFilters (some d) f = .ok out → f.yearFrom = none →
        f.yearTo = none → r ∈ d → countryPred f.country r → indicatorPred f.indicator r →
        valueOk r.value = true → r ∈ out)
  ∧ (∀ d f out r, applyFilters (some d) f = .ok out → r.year = .undef →
        f.yearFrom ≠ none ∨ f.yearTo ≠ none → r ∉ out)
  ∧ (∀ d f out r a, applyFilters (some d) f = .ok out → r.year = .null →
        f.yearFrom = some a → 0 < a → r ∉ out)
  ∧ (∀ d f out r b, applyFilters (some d) f = .ok out → r ∈ d → r.year = .null →
        f.yearFrom = none → f.yearTo = some b → 0 ≤ b →
        countryPred f.country r → indicatorPred f.indicator r → valueOk r.value = true →
        r ∈ out)
  ∧ (∀ e g out2 r n, applyFiltersV3 (some e) g = .ok out2 → g.year = some n →
        r.year = .null ∨ r.year = .undef → r ∉ out2) := by
  refine ⟨?_, ?_, ?_, ?_, ?_⟩
  · intro d f out r h hF hT hr hc hi hv
    refine (mem_applyFilters_out h r).mpr ⟨hr, hc, hi, ⟨?_, ?_⟩, hv⟩
    · intro a ha
      rw [hF] at ha
      exact Option.noConfusion ha
    · intro b hb
      rw [hT] at hb
      exact Option.noConfusion hb
  · intro d f out r h hyear hcase hmem
    obtain ⟨hyF, hyT⟩ := ((mem_applyFilters_out h r).mp hmem).2.2.2.1
    rcases hcase with hc | hc
    · obtain ⟨a, ha⟩ := Option.ne_none_iff_exists'.mp hc
      have := hyF a ha
      rw [hyear] at this
      simp [jsGe] at this
    · obtain ⟨b, hb⟩ := Option.ne_none_iff_exists'.mp hc
      have := hyT b hb
      rw [hyear] at this
      simp [jsLe] at this
  · intro d f out r a h hyear hFa hpos hmem
    obtain ⟨hyF, -⟩ := ((mem_applyFilters_out h r).mp hmem).2.2.2.1
    have := hyF a hFa
    rw [hyear] at this
    simp only [jsGe, decide_eq_true_eq] at this
    omega
  · intro d f out r b h hr hyear hF hT hb hc hi hv
    refine (mem_applyFilters_out h r).mpr ⟨hr, hc, hi, ⟨?_, ?_⟩, hv⟩
    · intro a ha
      rw [hF] at ha
      exact Option.noConfusion ha
    · intro b0 hb0
      rw [hT] at hb0
      injection hb0 with hbe
      subst hbe
      rw [hyear]
      simp only [jsLe, decide_eq_true_eq]
      exact hb
  · intro e g out2 r n h hgn hcase hmem
    have hy := ((mem_applyFiltersV3_out h r).mp hmem).2.2.2.1 n hgn
    rcases hcase with hc | hc <;> rw [hc] at hy <;> simp [jsEqNum] at hy

/-- Instantiation of C10 (amended): a record with an absent year is excluded
under an active year-from bound. -/
theorem c10_witness : undefYearPoint ∉ ([sampleAlbania] : List DataPoint) := by
  have h : applyFilters (some [undefYearPoint, sampleAlbania])
      { country := "", indicator := "", yearFrom := some 2015, yearTo := none, layer := "" }
      = .ok [sampleAlbania] := by decide
  exact c10_amended_nonnumeric_years.2.1 _ _ _ _ h rfl (Or.inl (by decide))

/-- The year options of `populateFilters` in `src/script.js` lines 50-69: a
fixed list 2015 to 2022, taking no account of the loaded records (the unused
argument mirrors the module state that function could read but does not). -/
def populateFiltersYearsScript (_d : List DataPoint) : List Int :=
  [2015, 2016, 2017, 2018, 2019, 2020, 2021, 2022]

/-- C9 (counterexample): with observed years 998 and 1000 the derived option
list of `src/unnamed/part_000` is [1000, 998] — the default sort compares the
strings "1000" and "998", so the list is not numerically ascending and the
year-from default (the first element) is the maximum, not the minimum. The
`src/script.js` variant ignores the records altogether and offers the fixed
list 2015 to 2022. -/
theorem c9_counterexample :
    populateFiltersYears [year998Point, year1000Point] = [.num 1000, .num 998]
  ∧ yearFromDefault [year998Point, year1000Point] = some (.num 1000)
  ∧ yearToDefault [year998Point, year1000Point] = some (.num 998)
  ∧ (998 : Int) < 1000
  ∧ populateFiltersYearsScript [year998Point, year1000Point]
      = [2015, 2016, 2017, 2018, 2019, 2020, 2021, 2022] := by
  have hpre : (jsSetDedup ([year998Point, year1000Point].map DataPoint.year)).filter jsTruthy
      = [.num 998, .num 1000] := by decide
  have h1 : jsKeyLe (.num 998) (.num 1000) = false := by decide
  have h2 : jsKeyLe (.num 1000) (.num 998) = true := by decide
  have hyears : populateFiltersYears [year998Point, year1000Point]
      = [.num 1000, .num 998] := by
    rw [populateFiltersYears, hpre]
    simp [List.mergeSort, h1, h2]
  refine ⟨hyears, ?_, ?_, by decide, rfl⟩
  · rw [yearFromDefault, hyears]
    rfl
  · rw [yearToDefault, hyears]
    rfl

/-- C9 (amended): the `part_000` option list holds exactly the distinct
truthy year values of the loaded records, without duplicates, sorted by the
string order the comparator-less `sort()` uses on their decimal forms (which
agrees with numeric ascending only while all years print with equally many
digits); the year-from default is the first and the year-to default the last
element of that ordering, hence least and greatest in the string order, not
necessarily numerically. The `script.js` variant offers a fixed list
independent of the records. -/
theorem c9_amended_year_options (d : List DataPoint) :
    (∀ y, y ∈ populateFiltersYears d ↔ jsTruthy y = true ∧ y ∈ d.map DataPoint.year)
  ∧ (populateFiltersYears d).Nodup
  ∧ (populateFiltersYears d).Pairwise (fun a b => jsKeyLe a b = true)
  ∧ (∀ yf, yearFromDefault d = some yf →
      yf ∈ populateFiltersYears d ∧ ∀ y ∈ populateFiltersYears d, jsKeyLe yf y = true)
  ∧ (∀ yt, yearToDefault d = some yt →
      yt ∈ populateFiltersYears d ∧ ∀ y ∈ populateFiltersYears d, jsKeyLe y yt = true)
  ∧ (∀ d2, populateFiltersYearsScript d = populateFiltersYearsScript d2) := by
  have hpair : (populateFiltersYears d).Pairwise (fun a b => jsKeyLe a b = true) := by
    rw [populateFiltersYears]
    exact List.sorted_mergeSort jsKeyLe_trans jsKeyLe_total _
  refine ⟨?_, ?_, hpair, ?_, ?_, fun d2 => rfl⟩
  · intro y
    rw [populateFiltersYears, List.mem_mergeSort, List.mem_filter, mem_jsSetDedup]
    tauto
  · rw [populateFiltersYears]
    exact ((List.mergeSort_perm _ _).nodup_iff).mpr ((nodup_jsSetDedup _).filter _)
  · intro yf hyf
    exact head?_minimal (fun a => jsKeyLe_refl a) _ yf hpair hyf
  · intro yt hyt
    exact getLast?_maximal (fun a => jsKeyLe_refl a) _ yt hpair hyt

/-- Instantiation of C9 (amended): the single observed year is the year-from
default and belongs to the option list. -/
theorem c9_witness : YVal.num 2019 ∈ populateFiltersYears [sampleAlbania] := by
  have hd : yearFromDefault [sampleAlbania] = some (.num 2019) := by
    have hpre : (jsSetDedup ([sampleAlbania].map DataPoint.year)).filter jsTruthy
        = [.num 2019] := by decide
    rw [yearFromDefault, populateFiltersYears, hpre]
    simp [List.mergeSort]
  exact ((c9_amended_year_options [sampleAlbania]).2.2.2.1 (.num 2019) hd).1

end WbDashboard
